import Mathlib

/-!
Verification of the NetDash monitoring scheduler and incident engine.

The definitions below are a shallow embedding of the Python sources
`app/scheduler.py`, `app/incident_engine.py`, `app/netdash/models.py` and
`app/checks/snmpv3_get.py`.  Statuses, states and reasons are the exact
strings the code uses; timestamps are abstracted to natural numbers;
JSON-like metadata bags become association lists.
-/

namespace NetDash

/-! ## Definitions

### Streak tracker (`MonitorScheduler._update_streaks`, scheduler.py 64-74) -/

/-- Per-check streak counters, the value type of `self._streaks`
(`check_id -> {"down": int, "up": int}`). -/
structure StreakState where
  down : Nat
  up : Nat
deriving DecidableEq

/-- The core update of `_update_streaks` (scheduler.py 67-72):
`status == "down"` increments `down` and zeroes `up`; any other status
increments `up` and zeroes `down`. -/
def streakStep (st : StreakState) (status : String) : StreakState :=
  if status == "down" then
    { down := st.down + 1, up := 0 }
  else
    { up := st.up + 1, down := 0 }

/-- Processing a whole sequence of statuses starting from the initial
state `{"down": 0, "up": 0}` installed by `setdefault` (scheduler.py 65). -/
def processStatuses (l : List String) : StreakState :=
  l.foldl streakStep { down := 0, up := 0 }

/-- Length of the trailing run of `down` statuses. -/
def downTrailing (l : List String) : Nat :=
  (l.reverse.takeWhile (fun s => s == "down")).length

/-- Length of the trailing run of statuses in `{up, degraded}`. -/
def upTrailing (l : List String) : Nat :=
  (l.reverse.takeWhile (fun s => s == "up" || s == "degraded")).length

/-! ### Incident model (`app/netdash/models.py`, class `Incident`) and the
incident engine (`app/incident_engine.py`).

The SQL table of incidents becomes a list of `Incident` records plus a
fresh-id counter; primary-key assignment on commit becomes taking the
counter.  Timestamps are natural numbers; the JSON `meta` bag becomes an
association list from string keys to natural numbers (the engine only ever
stores the two integer-valued keys). -/

/-- One row of the `incident` table: device/check foreign keys, a
`state ∈ {"open","closed"}` column, open/close timestamps, reasons, and the
`meta` bag.  Field defaults in the model are `open_reason = "down_streak"`,
`close_reason = "up_streak"`. -/
structure Incident where
  id : Nat
  device_id : Nat
  check_id : Nat
  state : String
  opened_ts : Nat
  closed_ts : Option Nat
  open_reason : String
  close_reason : String
  meta : List (String × Nat)
deriving DecidableEq

/-- The incident table together with the next primary key the database
would assign. -/
structure IncidentStore where
  incidents : List Incident
  next_id : Nat
deriving DecidableEq

/-- An empty incident table (ids start at 1 as in SQLite). -/
def emptyStore : IncidentStore := { incidents := [], next_id := 1 }

/-- The row filter of `_find_open_incident`'s query
(`check_id == check_id and state == "open"`). -/
def openFor (check_id : Nat) (i : Incident) : Bool :=
  i.check_id == check_id && i.state == "open"

/-- Accumulator for `order_by(opened_ts.desc()).limit(1)`: keep the row
with the larger `opened_ts` (the earlier row on ties). -/
def latestAcc (acc : Option Incident) (i : Incident) : Option Incident :=
  match acc with
  | none => some i
  | some j => if i.opened_ts > j.opened_ts then some i else some j

/-- `order_by(opened_ts.desc()).limit(1).first()` on a list of rows:
pick a row with maximal `opened_ts` (the first such row on ties), or
`none` when the list is empty. -/
def latestOpened (l : List Incident) : Option Incident :=
  l.foldl latestAcc none

/-- `_find_open_incident` (incident_engine.py 10-18): the open incident for
a check with the latest `opened_ts`, or `none`. -/
def findOpenIncident (incidents : List Incident) (check_id : Nat) :
    Option Incident :=
  latestOpened (incidents.filter (openFor check_id))

/-- Merge of Python dicts `{**base, **upd}`: keys of `upd` win. -/
def metaMerge (base upd : List (String × Nat)) : List (String × Nat) :=
  base.filter (fun p => (upd.find? (fun q => q.1 == p.1)).isNone) ++ upd

/-- `open_incident` (incident_engine.py 21-34): insert a fresh row with
`state = "open"`, the given open reason and metadata, the model default
`close_reason = "up_streak"`, and no close timestamp; returns the committed
row (carrying its assigned id) and the new store. -/
def open_incident (store : IncidentStore) (device_id check_id ts : Nat)
    (reason : String) (meta : List (String × Nat)) :
    Incident × IncidentStore :=
  let inc : Incident :=
    { id := store.next_id
      device_id := device_id
      check_id := check_id
      state := "open"
      opened_ts := ts
      closed_ts := none
      open_reason := reason
      close_reason := "up_streak"
      meta := meta }
  (inc, { incidents := store.incidents ++ [inc], next_id := store.next_id + 1 })

/-- Effect of `close_incident` (incident_engine.py 37-48) on one row: the
row whose primary key matches gets `state = "closed"`, the close timestamp
and reason, and `meta_update` merged into `meta` (when `meta_update` is
nonempty); every other row is untouched. -/
def closeRow (incident_id ts : Nat) (reason : String)
    (meta_update : List (String × Nat)) (inc : Incident) : Incident :=
  if inc.id == incident_id then
    { inc with
      state := "closed"
      closed_ts := some ts
      close_reason := reason
      meta := if meta_update.isEmpty then inc.meta
              else metaMerge inc.meta meta_update }
  else inc

/-- `close_incident` (incident_engine.py 37-48): fetch the row by primary
key and close it via `closeRow`; a missing id is a no-op. -/
def close_incident (store : IncidentStore) (incident_id ts : Nat)
    (reason : String) (meta_update : List (String × Nat)) : IncidentStore :=
  { store with
    incidents := store.incidents.map (closeRow incident_id ts reason meta_update) }

/-- The event dict returned by `process_status_transition` when a
transition fires: `{"type", "incident_id", "device_id", "check_id", "ts"}`. -/
structure IncEvent where
  type : String
  incident_id : Nat
  device_id : Nat
  check_id : Nat
  ts : Nat
deriving DecidableEq

/-- `process_status_transition` (incident_engine.py 51-113).  Looks up the
open incident for the check; on `status == "down"` opens a new incident
when none is open and `down_streak >= open_after_downs`; on any other
status closes the open incident when one exists and
`up_streak >= close_after_ups`.  Returns the emitted event (`none` for the
Python `{}`) and the updated store. -/
def process_status_transition (store : IncidentStore)
    (device_id check_id ts : Nat) (status : String)
    (down_streak up_streak : Nat) (open_after_downs close_after_ups : Nat) :
    Option IncEvent × IncidentStore :=
  let open_inc := findOpenIncident store.incidents check_id
  if status == "down" then
    match open_inc with
    | none =>
        if down_streak ≥ open_after_downs then
          let (inc, store') := open_incident store device_id check_id ts
            "down_streak"
            [("open_after_downs", open_after_downs),
             ("down_streak", down_streak)]
          (some { type := "incident_opened", incident_id := inc.id,
                  device_id := device_id, check_id := check_id, ts := ts },
           store')
        else (none, store)
    | some _ => (none, store)
  else
    match open_inc with
    | some inc =>
        if up_streak ≥ close_after_ups then
          (some { type := "incident_closed", incident_id := inc.id,
                  device_id := device_id, check_id := check_id, ts := ts },
           close_incident store inc.id ts "up_streak"
             [("close_after_ups", close_after_ups),
              ("up_streak", up_streak)])
        else (none, store)
    | none => (none, store)

/-- The row `open_incident` inserts on a down-streak trigger, with its
assigned primary key. -/
def newOpenIncident (id device_id check_id ts open_after_downs down_streak :
    Nat) : Incident :=
  { id := id
    device_id := device_id
    check_id := check_id
    state := "open"
    opened_ts := ts
    closed_ts := none
    open_reason := "down_streak"
    close_reason := "up_streak"
    meta := [("open_after_downs", open_after_downs),
             ("down_streak", down_streak)] }

/-- Number of open incidents a check has in the table. -/
def openCount (incidents : List Incident) (check_id : Nat) : Nat :=
  (incidents.filter (openFor check_id)).length

/-- The inputs of one call to `process_status_transition`, i.e. one poll as
made by `MonitorScheduler._run_check_loop` (scheduler.py 108-117). -/
structure PollInput where
  device_id : Nat
  check_id : Nat
  ts : Nat
  status : String
  down_streak : Nat
  up_streak : Nat
  open_after_downs : Nat
  close_after_ups : Nat
deriving DecidableEq

/-- A sample poll: third consecutive `down` at the default thresholds. -/
def downPollAtThreshold : PollInput :=
  { device_id := 1, check_id := 1, ts := 0, status := "down",
    down_streak := 3, up_streak := 0, open_after_downs := 3,
    close_after_ups := 2 }

/-- State change of the incident table from one poll. -/
def pollStep (store : IncidentStore) (p : PollInput) : IncidentStore :=
  (process_status_transition store p.device_id p.check_id p.ts p.status
    p.down_streak p.up_streak p.open_after_downs p.close_after_ups).2

/-- State of the incident table after a sequence of polls. -/
def pollSeq (store : IncidentStore) (polls : List PollInput) : IncidentStore :=
  polls.foldl pollStep store

/-! ### Scheduler state (`MonitorScheduler`, scheduler.py 17-62)

Only the pieces the claims are about: the task map becomes the list of
check ids with a live loop, `self._streaks` becomes an association list.
`reload` (scheduler.py 46-62) replaces the task set with the loops of the
currently active checks; it never touches `self._streaks`. -/

/-- The scheduler's mutable state: `self._tasks` (as the list of check ids
with a running loop) and `self._streaks`. -/
structure SchedulerState where
  tasks : List Nat
  streaks : List (Nat × StreakState)
deriving DecidableEq

/-- A freshly constructed `MonitorScheduler` (`__init__`, scheduler.py
18-28): no tasks, empty streak map. -/
def initScheduler : SchedulerState := { tasks := [], streaks := [] }

/-- Dict lookup on the streak map. -/
def streaksLookup (m : List (Nat × StreakState)) (k : Nat) :
    Option StreakState :=
  (m.find? (fun p => p.1 == k)).map Prod.snd

/-- Dict store on the streak map: overwrite the entry for `k` if present,
otherwise append it. -/
def streaksInsert (m : List (Nat × StreakState)) (k : Nat) (v : StreakState) :
    List (Nat × StreakState) :=
  if (m.find? (fun p => p.1 == k)).isSome then
    m.map (fun p => if p.1 == k then (k, v) else p)
  else m ++ [(k, v)]

/-- `_update_streaks` (scheduler.py 64-74): `setdefault` the check's entry
to `{"down": 0, "up": 0}`, apply the status rule in place, and return the
entry. -/
def update_streaks (sched : SchedulerState) (check_id : Nat)
    (status : String) : StreakState × SchedulerState :=
  let st := (streaksLookup sched.streaks check_id).getD { down := 0, up := 0 }
  let st' := streakStep st status
  (st', { sched with streaks := streaksInsert sched.streaks check_id st' })

/-- `reload` (scheduler.py 46-62): cancel and drop every running task, then
create one task per active check.  The streak map is not touched. -/
def reload (sched : SchedulerState) (active_checks : List Nat) :
    SchedulerState :=
  { tasks := active_checks, streaks := sched.streaks }

/-! ### Inter-poll wait and loop termination (scheduler.py 90-143)

The waiting itself is real time; what is statable is the timeout value the
code computes and the control flow around the stop flag. -/

/-- The timeout the loop passes to `asyncio.wait_for(self._stop.wait(), ...)`
after a poll (scheduler.py 141): it is `chk.interval_s`, taking no account
of the time already spent in the poll (the second argument is unused). -/
def interPollWaitTimeout (interval_s elapsed_in_poll : Nat) : Nat :=
  interval_s

/-- Modelled from the spec: the wait the spec claims, "the remainder of the
interval (the interval minus the time already spent in that poll)". -/
def interPollWaitSpec (interval_s elapsed_in_poll : Nat) : Nat :=
  interval_s - elapsed_in_poll

/-- Control state of one `while not self._stop.is_set()` loop: whether the
stop event has been observed set, and how many polls have run. -/
structure LoopState where
  stopped : Bool
  pollCount : Nat
deriving DecidableEq

/-- One turn of the `while` loop (scheduler.py 90-143): if the stop flag is
set the loop exits (state unchanged, no poll); otherwise it performs a poll
and then waits, during which the stop event may fire. -/
def loopIter (st : LoopState) (stop_fires_during_wait : Bool) : LoopState :=
  if st.stopped then st
  else { stopped := stop_fires_during_wait, pollCount := st.pollCount + 1 }

/-- Running the loop over a schedule of waits (entry `k` tells whether the
stop event fires during the wait after poll `k`). -/
def loopTrace (st : LoopState) (waits : List Bool) : LoopState :=
  waits.foldl loopIter st

/-! ### Effective incident thresholds (scheduler.py 26-28, 86-87) -/

/-- `dict.get(key, default)` on a check's integer-valued params. -/
def paramsGet (params : List (String × Nat)) (key : String) (default : Nat) :
    Nat :=
  ((params.find? (fun p => p.1 == key)).map Prod.snd).getD default

/-- `self.open_after_downs_default` (scheduler.py 27). -/
def open_after_downs_default : Nat := 3

/-- `self.close_after_ups_default` (scheduler.py 28). -/
def close_after_ups_default : Nat := 2

/-- The open threshold `_run_check_loop` passes to the incident engine
(scheduler.py 86, 115). -/
def effectiveOpenAfterDowns (params : List (String × Nat)) : Nat :=
  paramsGet params "open_after_downs" open_after_downs_default

/-- The close threshold `_run_check_loop` passes to the incident engine
(scheduler.py 87, 116). -/
def effectiveCloseAfterUps (params : List (String × Nat)) : Nat :=
  paramsGet params "close_after_ups" close_after_ups_default

/-! ### SNMPv3 check executor (`app/checks/snmpv3_get.py`)

The network interaction of `getCmd` is external; it is abstracted as a
`SnmpProbe`: either the code inside the `try` raised, or `getCmd` returned
an (error_indication, error_status, error_index, var_binds) tuple together
with the measured latency.  Everything the executor itself computes is
translated from the source. -/

/-- A value in an outcome's `details` bag. -/
inductive DetailVal where
  | str (v : String)
  | num (v : Nat)
  | dict (v : List (String × String))
deriving DecidableEq

/-- `CheckOutcome` from `app/checks/base.py`: the per-poll result contract
`(status, latency_ms, details)` with `status ∈ {up, degraded, down}`. -/
structure CheckOutcome where
  status : String
  latency_ms : Option Nat
  details : List (String × DetailVal)
deriving DecidableEq

/-- `_resolve_secret` (snmpv3_get.py 39-46): a string starting with
`env:` has the rest looked up in the environment (empty string when the
variable is absent, as `os.environ.get(key, "")`); anything else is
returned unchanged.  The `value.startswith("env:")` test is expressed on
the character list so that it computes. -/
def resolve_secret (env : String → Option String) (value : String) : String :=
  if "env:".data.isPrefixOf value.data then (env (value.drop 4).trim).getD ""
  else value

/-- What happened inside the `try` block of `SNMPv3GetCheck.run`: the
wrapped code raised, or `getCmd` returned its result tuple. -/
inductive SnmpProbe where
  | raises (msg : String)
  | response (error_indication : Option String)
      (error_status : Option String) (error_index : Nat)
      (binds : List (String × String)) (latency_ms : Nat)
deriving DecidableEq

/-- A JSON-ish value of the `"port"` entry of a check's params, as Python's
`int()` sees it: already an integer, or a string to be parsed. -/
inductive PyVal where
  | int (n : Nat)
  | str (s : String)
deriving DecidableEq

/-- Python `int()` on a string: a nonempty all-digit string parses as a
decimal number; anything else raises `ValueError`. -/
def pyIntOfString (s : String) : Except String Nat :=
  if s.data ≠ [] ∧ ∀ c ∈ s.data, c.isDigit then
    Except.ok (s.data.foldl (fun acc c => acc * 10 + (c.toNat - 48)) 0)
  else
    Except.error ("invalid literal for int() with base 10: " ++ s)

/-- Python `int()` on a params value: an integer passes through; a string
parses or raises. -/
def pyInt : PyVal → Except String Nat
  | PyVal.int n => Except.ok n
  | PyVal.str s => pyIntOfString s

/-- The body of `SNMPv3GetCheck.run` from line 55 on, given the already
parsed port: a missing (empty after resolution) username short-circuits to
a `down` outcome; a raised exception inside the `try` becomes a `down`
outcome with the error text and port; an SNMP `error_indication` becomes a
`down` outcome with the error text; an SNMP `error_status` becomes a
`degraded` outcome with latency and the pretty error; otherwise an `up`
outcome with latency, port and values. -/
def snmpv3_get_outcome (env : String → Option String)
    (username_param : String) (port : Nat) (probe : SnmpProbe) :
    CheckOutcome :=
  let username := resolve_secret env username_param
  if username = "" then
    { status := "down", latency_ms := none,
      details := [("error", DetailVal.str "missing username")] }
  else
    match probe with
    | SnmpProbe.raises msg =>
        { status := "down", latency_ms := none,
          details := [("error", DetailVal.str msg), ("port", DetailVal.num port)] }
    | SnmpProbe.response (some ei) _ _ _ _ =>
        { status := "down", latency_ms := none,
          details := [("error", DetailVal.str ei)] }
    | SnmpProbe.response none (some es) eidx _ lat =>
        { status := "degraded", latency_ms := some lat,
          details := [("error", DetailVal.str (es ++ " at " ++ toString eidx))] }
    | SnmpProbe.response none none _ binds lat =>
        { status := "up", latency_ms := some lat,
          details := [("port", DetailVal.num port), ("values", DetailVal.dict binds)] }

/-- `SNMPv3GetCheck.run` (snmpv3_get.py 52-111) in full.  The parameter
parsing `port = int(params.get("port", 161))` at line 54 runs before the
`try` block: when `int()` raises, the exception propagates out of `run`
(the `Except.error` result); only after a successful parse does the body
produce a `CheckOutcome`. -/
def snmpv3_get_run (env : String → Option String)
    (port_param : Option PyVal) (username_param : String)
    (probe : SnmpProbe) : Except String CheckOutcome :=
  match pyInt (port_param.getD (PyVal.int 161)) with
  | Except.error e => Except.error e
  | Except.ok port =>
      Except.ok (snmpv3_get_outcome env username_param port probe)

/-! ### Per-check loop event trace (scheduler.py 76-155)

For the fail-stop claim the loop is abstracted over iteration outcomes:
an iteration either completes normally (broadcasting its result/incident
events), is cancelled, or raises an unexpected exception. -/

/-- The `scheduler_error` event dict (scheduler.py 148-154). -/
structure SchedErrorEvent where
  type : String
  device_id : Nat
  check_id : Nat
  kind : String
  error : String
deriving DecidableEq

/-- An event broadcast by a per-check loop. -/
inductive LoopEvent where
  | resultEvent (check_id : Nat) (status : String) (down_streak up_streak : Nat)
  | incidentEvent (e : IncEvent)
  | schedulerError (e : SchedErrorEvent)
deriving DecidableEq

/-- One iteration of the loop body, as observed from outside: completed
normally broadcasting `evs`, was cancelled at a suspension point, or
raised an unexpected exception with message `msg`. -/
inductive IterOutcome where
  | normal (evs : List LoopEvent)
  | cancelled
  | crashed (msg : String)
deriving DecidableEq

/-- The events a normal iteration broadcast. -/
def iterEvents : IterOutcome → List LoopEvent
  | IterOutcome.normal evs => evs
  | _ => []

/-- The event trace of `_run_check_loop` (scheduler.py 89-155) over a
schedule of iteration outcomes: normal iterations contribute their events
and the loop continues; an exhausted schedule is the stop flag ending the
loop; cancellation returns with no further events (line 145-146); an
unexpected exception broadcasts one `scheduler_error` event and returns
(lines 147-155), so nothing after it contributes. -/
def runCheckLoopEvents (device_id check_id : Nat) (kind : String) :
    List IterOutcome → List LoopEvent
  | [] => []
  | IterOutcome.normal evs :: rest =>
      evs ++ runCheckLoopEvents device_id check_id kind rest
  | IterOutcome.cancelled :: _ => []
  | IterOutcome.crashed msg :: _ =>
      [LoopEvent.schedulerError
        { type := "scheduler_error", device_id := device_id,
          check_id := check_id, kind := kind, error := msg }]

/-- Whether a loop event is a `scheduler_error`. -/
def isSchedulerError : LoopEvent → Bool
  | LoopEvent.schedulerError _ => true
  | _ => false

/-! ## Theorems

### C1: streak correctness -/

theorem processStatuses_append_single (l : List String) (s : String) :
    processStatuses (l ++ [s]) = streakStep (processStatuses l) s := by
  simp [processStatuses, List.foldl_append]

theorem downTrailing_append_single (l : List String) (s : String) :
    downTrailing (l ++ [s]) =
      if s == "down" then downTrailing l + 1 else 0 := by
  by_cases h : (s == "down") = true
  · simp [downTrailing, List.takeWhile, h]
  · have hb : (s == "down") = false := by simpa using h
    have hp : ¬ s = "down" := by simpa using h
    simp [downTrailing, List.takeWhile, hb, hp]

theorem upTrailing_append_single (l : List String) (s : String) :
    upTrailing (l ++ [s]) =
      if (s == "up" || s == "degraded") then upTrailing l + 1 else 0 := by
  by_cases h : (s == "up" || s == "degraded") = true
  · simp [upTrailing, List.takeWhile, h]
  · have hb : (s == "up" || s == "degraded") = false := by simpa using h
    have hp : ¬ (s = "up" ∨ s = "degraded") := by simpa using h
    simp [upTrailing, List.takeWhile, hb, hp]

/-- **C1.** Streak correctness: starting from `(0, 0)`, for a sequence of
statuses drawn from `{up, degraded, down}`, the resulting down-count is the
length of the trailing run of `down`, the up-count is the length of the
trailing run of `{up, degraded}`, and at least one of the two counters is
zero (so they are never both nonzero). -/
theorem streak_correctness (l : List String)
    (h : ∀ s ∈ l, s = "up" ∨ s = "degraded" ∨ s = "down") :
    (processStatuses l).down = downTrailing l ∧
    (processStatuses l).up = upTrailing l ∧
    ((processStatuses l).down = 0 ∨ (processStatuses l).up = 0) := by
  induction l using List.reverseRecOn with
  | nil => simp [processStatuses, downTrailing, upTrailing]
  | append_singleton l s ih =>
      have hl : ∀ t ∈ l, t = "up" ∨ t = "degraded" ∨ t = "down" := by
        intro t ht; exact h t (by simp [ht])
      have hs : s = "up" ∨ s = "degraded" ∨ s = "down" := h s (by simp)
      obtain ⟨ihd, ihu, _⟩ := ih hl
      rw [processStatuses_append_single, downTrailing_append_single,
        upTrailing_append_single]
      rcases hs with rfl | rfl | rfl <;>
        simp [streakStep, ihd, ihu]

/-- Witness for C1 at the sequence `[up, down, degraded, up]`. -/
theorem streak_correctness_witness :
    (∀ s ∈ ["up", "down", "degraded", "up"],
        s = "up" ∨ s = "degraded" ∨ s = "down") ∧
    (processStatuses ["up", "down", "degraded", "up"]).down =
        downTrailing ["up", "down", "degraded", "up"] ∧
    (processStatuses ["up", "down", "degraded", "up"]).up =
        upTrailing ["up", "down", "degraded", "up"] ∧
    ((processStatuses ["up", "down", "degraded", "up"]).down = 0 ∨
        (processStatuses ["up", "down", "degraded", "up"]).up = 0) :=
  ⟨by decide, streak_correctness ["up", "down", "degraded", "up"] (by decide)⟩

/-! ### Behaviour lemmas for the incident engine -/

theorem foldl_latestAcc_some (l : List Incident) (j : Incident) :
    ∃ k, l.foldl latestAcc (some j) = some k ∧ (k = j ∨ k ∈ l) := by
  induction l generalizing j with
  | nil => exact ⟨j, rfl, Or.inl rfl⟩
  | cons a t ih =>
      simp only [List.foldl_cons, latestAcc]
      by_cases h : a.opened_ts > j.opened_ts
      · obtain ⟨k, hk, hmem⟩ := ih a
        refine ⟨k, by simp [h, hk], ?_⟩
        rcases hmem with rfl | hm
        · exact Or.inr (List.mem_cons_self _ _)
        · exact Or.inr (List.mem_cons_of_mem _ hm)
      · obtain ⟨k, hk, hmem⟩ := ih j
        refine ⟨k, by simp [h, hk], ?_⟩
        rcases hmem with rfl | hm
        · exact Or.inl rfl
        · exact Or.inr (List.mem_cons_of_mem _ hm)

theorem latestOpened_eq_none_iff (l : List Incident) :
    latestOpened l = none ↔ l = [] := by
  constructor
  · intro h
    cases l with
    | nil => rfl
    | cons a t =>
        obtain ⟨k, hk, _⟩ := foldl_latestAcc_some t a
        simp [latestOpened, latestAcc, hk] at h
  · intro h; subst h; rfl

theorem latestOpened_mem (l : List Incident) (i : Incident)
    (h : latestOpened l = some i) : i ∈ l := by
  cases l with
  | nil => simp [latestOpened] at h
  | cons a t =>
      obtain ⟨k, hk, hmem⟩ := foldl_latestAcc_some t a
      simp only [latestOpened, List.foldl_cons, latestAcc] at h
      rw [hk] at h
      cases h
      rcases hmem with rfl | hm
      · exact List.mem_cons_self _ _
      · exact List.mem_cons_of_mem _ hm

theorem findOpenIncident_none_iff (incidents : List Incident)
    (check_id : Nat) :
    findOpenIncident incidents check_id = none ↔
      openCount incidents check_id = 0 := by
  rw [findOpenIncident, latestOpened_eq_none_iff, openCount,
    List.length_eq_zero]

/-- The incident returned by the lookup is an open row of that check. -/
theorem findOpenIncident_spec (incidents : List Incident) (check_id : Nat)
    (i : Incident) (h : findOpenIncident incidents check_id = some i) :
    i ∈ incidents ∧ i.check_id = check_id ∧ i.state = "open" := by
  have hmem := latestOpened_mem _ _ h
  have hfilter := List.of_mem_filter hmem
  simp only [openFor, Bool.and_eq_true, beq_iff_eq] at hfilter
  exact ⟨List.mem_of_mem_filter hmem, hfilter.1, hfilter.2⟩

/-- Down status, no open incident, threshold reached: the engine inserts
the new open row and reports `incident_opened`. -/
theorem process_eq_open (store : IncidentStore)
    (device_id check_id ts : Nat) (status : String)
    (down_streak up_streak open_after_downs close_after_ups : Nat)
    (hs : status = "down")
    (hfind : findOpenIncident store.incidents check_id = none)
    (hth : open_after_downs ≤ down_streak) :
    process_status_transition store device_id check_id ts status
        down_streak up_streak open_after_downs close_after_ups =
      (some { type := "incident_opened", incident_id := store.next_id,
              device_id := device_id, check_id := check_id, ts := ts },
       { incidents := store.incidents ++
           [newOpenIncident store.next_id device_id check_id ts
              open_after_downs down_streak],
         next_id := store.next_id + 1 }) := by
  subst hs
  simp [process_status_transition, hfind, hth, open_incident, newOpenIncident]

/-- Down status without the open trigger (already-open incident, or streak
below threshold): no event, no state change. -/
theorem process_eq_down_noop (store : IncidentStore)
    (device_id check_id ts : Nat) (status : String)
    (down_streak up_streak open_after_downs close_after_ups : Nat)
    (hs : status = "down")
    (h : findOpenIncident store.incidents check_id ≠ none ∨
        down_streak < open_after_downs) :
    process_status_transition store device_id check_id ts status
        down_streak up_streak open_after_downs close_after_ups =
      (none, store) := by
  subst hs
  cases hfind : findOpenIncident store.incidents check_id with
  | none =>
      rcases h with h | h
      · exact absurd hfind h
      · have hn : ¬ down_streak ≥ open_after_downs := by omega
        simp [process_status_transition, hfind, hn]
  | some inc => simp [process_status_transition, hfind]

/-- Non-down status, an open incident found, close threshold reached: the
engine closes that row and reports `incident_closed`. -/
theorem process_eq_close (store : IncidentStore)
    (device_id check_id ts : Nat) (status : String)
    (down_streak up_streak open_after_downs close_after_ups : Nat)
    (inc : Incident)
    (hs : status ≠ "down")
    (hfind : findOpenIncident store.incidents check_id = some inc)
    (hth : close_after_ups ≤ up_streak) :
    process_status_transition store device_id check_id ts status
        down_streak up_streak open_after_downs close_after_ups =
      (some { type := "incident_closed", incident_id := inc.id,
              device_id := device_id, check_id := check_id, ts := ts },
       close_incident store inc.id ts "up_streak"
         [("close_after_ups", close_after_ups), ("up_streak", up_streak)]) := by
  have hb : (status == "down") = false := by simpa using hs
  simp [process_status_transition, hb, hfind, hth]

/-- Non-down status without the close trigger (no open incident, or streak
below threshold): no event, no state change. -/
theorem process_eq_up_noop (store : IncidentStore)
    (device_id check_id ts : Nat) (status : String)
    (down_streak up_streak open_after_downs close_after_ups : Nat)
    (hs : status ≠ "down")
    (h : findOpenIncident store.incidents check_id = none ∨
        up_streak < close_after_ups) :
    process_status_transition store device_id check_id ts status
        down_streak up_streak open_after_downs close_after_ups =
      (none, store) := by
  have hb : (status == "down") = false := by simpa using hs
  cases hfind : findOpenIncident store.incidents check_id with
  | none => simp [process_status_transition, hb, hfind]
  | some inc =>
      rcases h with h | h
      · simp [hfind] at h
      · have hn : ¬ up_streak ≥ close_after_ups := by omega
        simp [process_status_transition, hb, hfind, hn]

/-! ### C2: at most one open incident -/

theorem openCount_append (l₁ l₂ : List Incident) (check_id : Nat) :
    openCount (l₁ ++ l₂) check_id =
      openCount l₁ check_id + openCount l₂ check_id := by
  simp [openCount, List.filter_append]

theorem openFor_closeRow (check_id incident_id ts : Nat) (reason : String)
    (meta_update : List (String × Nat)) (inc : Incident)
    (h : openFor check_id (closeRow incident_id ts reason meta_update inc)
        = true) :
    openFor check_id inc = true := by
  by_cases hid : (inc.id == incident_id) = true
  · simp [closeRow, hid, openFor] at h
  · simpa [closeRow, hid] using h

theorem openCount_map_closeRow_le (l : List Incident)
    (incident_id ts : Nat) (reason : String)
    (meta_update : List (String × Nat)) (check_id : Nat) :
    openCount (l.map (closeRow incident_id ts reason meta_update)) check_id
      ≤ openCount l check_id := by
  induction l with
  | nil => simp [openCount]
  | cons a t ih =>
      simp only [List.map_cons, openCount, List.filter_cons] at ih ⊢
      by_cases h1 : openFor check_id
          (closeRow incident_id ts reason meta_update a) = true
      · have h2 := openFor_closeRow _ _ _ _ _ _ h1
        simp only [h1, h2, if_true, List.length_cons]
        omega
      · have h1f : openFor check_id
            (closeRow incident_id ts reason meta_update a) = false := by
          simpa using h1
        by_cases h2 : openFor check_id a = true
        · simp only [h1f, h2, if_true, Bool.false_eq_true, if_false,
            List.length_cons]
          omega
        · have h2f : openFor check_id a = false := by simpa using h2
          simp only [h1f, h2f, Bool.false_eq_true, if_false]
          exact ih

theorem openCount_close_le (store : IncidentStore)
    (incident_id ts : Nat) (reason : String)
    (meta_update : List (String × Nat)) (check_id : Nat) :
    openCount (close_incident store incident_id ts reason
        meta_update).incidents check_id ≤
      openCount store.incidents check_id :=
  openCount_map_closeRow_le _ _ _ _ _ _

theorem openCount_newOpenIncident_self (id device_id check_id ts oad ds :
    Nat) :
    openCount [newOpenIncident id device_id check_id ts oad ds] check_id
      = 1 := by
  simp [openCount, openFor, newOpenIncident]

theorem openCount_newOpenIncident_other (id device_id check_id ts oad ds
    cid : Nat) (h : check_id ≠ cid) :
    openCount [newOpenIncident id device_id check_id ts oad ds] cid = 0 := by
  simp [openCount, openFor, newOpenIncident, h]

theorem process_preserves_openCount_le_one (store : IncidentStore)
    (device_id check_id ts : Nat) (status : String)
    (down_streak up_streak open_after_downs close_after_ups : Nat)
    (hinv : ∀ cid, openCount store.incidents cid ≤ 1) :
    ∀ cid, openCount (process_status_transition store device_id check_id ts
        status down_streak up_streak open_after_downs
        close_after_ups).2.incidents cid ≤ 1 := by
  intro cid
  by_cases hs : status = "down"
  · cases hfind : findOpenIncident store.incidents check_id with
    | none =>
        by_cases hth : open_after_downs ≤ down_streak
        · rw [process_eq_open store device_id check_id ts status down_streak
            up_streak open_after_downs close_after_ups hs hfind hth]
          rw [openCount_append]
          by_cases hc : check_id = cid
          · subst hc
            have h0 : openCount store.incidents check_id = 0 :=
              (findOpenIncident_none_iff _ _).mp hfind
            have h1 := openCount_newOpenIncident_self store.next_id
              device_id check_id ts open_after_downs down_streak
            omega
          · have h1 := openCount_newOpenIncident_other store.next_id
              device_id check_id ts open_after_downs down_streak cid hc
            have := hinv cid
            omega
        · rw [process_eq_down_noop store device_id check_id ts status
            down_streak up_streak open_after_downs close_after_ups hs
            (Or.inr (by omega))]
          exact hinv cid
    | some inc =>
        rw [process_eq_down_noop store device_id check_id ts status
          down_streak up_streak open_after_downs close_after_ups hs
          (Or.inl (by simp [hfind]))]
        exact hinv cid
  · cases hfind : findOpenIncident store.incidents check_id with
    | none =>
        rw [process_eq_up_noop store device_id check_id ts status
          down_streak up_streak open_after_downs close_after_ups hs
          (Or.inl hfind)]
        exact hinv cid
    | some inc =>
        by_cases hth : close_after_ups ≤ up_streak
        · rw [process_eq_close store device_id check_id ts status
            down_streak up_streak open_after_downs close_after_ups inc hs
            hfind hth]
          exact Nat.le_trans (openCount_close_le _ _ _ _ _ _) (hinv cid)
        · rw [process_eq_up_noop store device_id check_id ts status
            down_streak up_streak open_after_downs close_after_ups hs
            (Or.inr (by omega))]
          exact hinv cid

theorem pollSeq_preserves_openCount_le_one (polls : List PollInput)
    (store : IncidentStore)
    (hinv : ∀ cid, openCount store.incidents cid ≤ 1) :
    ∀ cid, openCount (pollSeq store polls).incidents cid ≤ 1 := by
  induction polls generalizing store with
  | nil => exact hinv
  | cons p rest ih =>
      exact ih _ (process_preserves_openCount_le_one _ _ _ _ _ _ _ _ _ hinv)

theorem opened_event_requires_no_open (store : IncidentStore)
    (device_id check_id ts : Nat) (status : String)
    (down_streak up_streak open_after_downs close_after_ups : Nat)
    (e : IncEvent)
    (h : (process_status_transition store device_id check_id ts status
        down_streak up_streak open_after_downs close_after_ups).1 = some e)
    (ht : e.type = "incident_opened") :
    findOpenIncident store.incidents check_id = none := by
  by_cases hs : status = "down"
  · cases hfind : findOpenIncident store.incidents check_id with
    | none => rfl
    | some inc =>
        rw [process_eq_down_noop store device_id check_id ts status
          down_streak up_streak open_after_downs close_after_ups hs
          (Or.inl (by simp [hfind]))] at h
        simp at h
  · cases hfind : findOpenIncident store.incidents check_id with
    | none => rfl
    | some inc =>
        by_cases hth : close_after_ups ≤ up_streak
        · rw [process_eq_close store device_id check_id ts status
            down_streak up_streak open_after_downs close_after_ups inc hs
            hfind hth] at h
          cases h
          simp at ht
        · rw [process_eq_up_noop store device_id check_id ts status
            down_streak up_streak open_after_downs close_after_ups hs
            (Or.inr (by omega))] at h
          simp at h

/-- **C2.** At-most-one-open-incident: from any incident table where every
check has at most one open incident, after any sequence of polls every
prefix of the run leaves at most one open incident per check; and an
`incident_opened` event is only ever returned when the lookup of an
existing open incident for the check returned `none`. -/
theorem at_most_one_open_incident (store : IncidentStore)
    (polls : List PollInput)
    (hinv : ∀ cid, openCount store.incidents cid ≤ 1) :
    (∀ n cid,
        openCount (pollSeq store (List.take n polls)).incidents cid ≤ 1) ∧
    (∀ p : PollInput, ∀ e : IncEvent,
        (process_status_transition store p.device_id p.check_id p.ts
            p.status p.down_streak p.up_streak p.open_after_downs
            p.close_after_ups).1 = some e →
        e.type = "incident_opened" →
        findOpenIncident store.incidents p.check_id = none) := by
  constructor
  · intro n cid
    exact pollSeq_preserves_openCount_le_one (List.take n polls) store hinv cid
  · intro p e h ht
    exact opened_event_requires_no_open store p.device_id p.check_id p.ts
      p.status p.down_streak p.up_streak p.open_after_downs
      p.close_after_ups e h ht

/-- Witness for C2: the empty table satisfies the invariant, and after one
`down` poll at threshold the polled check still has at most one open
incident. -/
theorem at_most_one_open_incident_witness :
    (∀ cid, openCount emptyStore.incidents cid ≤ 1) ∧
    openCount
      (pollSeq emptyStore (List.take 1 [downPollAtThreshold])).incidents
      1 ≤ 1 :=
  ⟨fun cid => by simp [emptyStore, openCount],
   (at_most_one_open_incident emptyStore [downPollAtThreshold]
      (fun cid => by simp [emptyStore, openCount])).1 1 1⟩

/-! ### C3: open trigger

The spec spells the open reason `"down-streak"`; the code stores
`"down_streak"` (incident_engine.py 81, and the model default in
models.py). -/

/-- **C3 counterexample.** At the third consecutive `down` with default
thresholds and an empty table, the one incident the engine creates has
open reason `"down_streak"`, not the claimed `"down-streak"`. -/
theorem open_trigger_reason_counterexample :
    ((process_status_transition emptyStore 1 1 0 "down" 3 0 3 2).2.incidents.map
        Incident.open_reason) = ["down_streak"] ∧
    ¬ ((process_status_transition emptyStore 1 1 0 "down" 3 0 3 2).2.incidents.map
        Incident.open_reason) = ["down-streak"] := by
  constructor
  · rfl
  · decide

/-- **C3 (amended).** When the engine sees `status = "down"`, no open
incident for the check, and down-streak ≥ open-threshold, it appends
exactly one new incident (state `"open"`, open reason `"down_streak"`,
metadata recording the threshold and the down-count at trigger) and
returns an `incident_opened` event carrying its id and the poll's
device/check/timestamp; with the streak below the threshold or an incident
already open, the table is unchanged and no event is produced. -/
theorem open_trigger (store : IncidentStore) (device_id check_id ts : Nat)
    (down_streak up_streak open_after_downs close_after_ups : Nat) :
    (findOpenIncident store.incidents check_id = none →
      open_after_downs ≤ down_streak →
      process_status_transition store device_id check_id ts "down"
          down_streak up_streak open_after_downs close_after_ups =
        (some { type := "incident_opened", incident_id := store.next_id,
                device_id := device_id, check_id := check_id, ts := ts },
         { incidents := store.incidents ++
             [newOpenIncident store.next_id device_id check_id ts
                open_after_downs down_streak],
           next_id := store.next_id + 1 })) ∧
    ((down_streak < open_after_downs ∨
        findOpenIncident store.incidents check_id ≠ none) →
      process_status_transition store device_id check_id ts "down"
          down_streak up_streak open_after_downs close_after_ups =
        (none, store)) := by
  constructor
  · intro hfind hth
    exact process_eq_open store device_id check_id ts "down" down_streak
      up_streak open_after_downs close_after_ups rfl hfind hth
  · intro h
    exact process_eq_down_noop store device_id check_id ts "down"
      down_streak up_streak open_after_downs close_after_ups rfl h.symm

/-- Witness for C3 at the empty table, third `down`, default thresholds. -/
theorem open_trigger_witness :
    findOpenIncident emptyStore.incidents 1 = none ∧ (3 : Nat) ≤ 3 ∧
    process_status_transition emptyStore 1 1 0 "down" 3 0 3 2 =
      (some { type := "incident_opened", incident_id := 1, device_id := 1,
              check_id := 1, ts := 0 },
       { incidents := [newOpenIncident 1 1 1 0 3 3], next_id := 2 }) :=
  ⟨rfl, by decide, (open_trigger emptyStore 1 1 0 3 0 3 2).1 rfl (by decide)⟩

/-! ### C4: close trigger and no-op idempotence

The spec spells the close reason `"up-streak"`; the code stores
`"up_streak"` (incident_engine.py 99). -/

/-- **C4 counterexample.** Open an incident with three `down`s, then close
it with `status = "up"` at up-streak 2 and default thresholds: the closed
row has state `"closed"` and close reason `"up_streak"`, not the claimed
`"up-streak"`. -/
theorem close_trigger_reason_counterexample :
    ((process_status_transition (pollSeq emptyStore [downPollAtThreshold])
        1 1 5 "up" 0 2 3 2).2.incidents.map
        (fun i => (i.state, i.close_reason))) = [("closed", "up_streak")] ∧
    ¬ ((process_status_transition (pollSeq emptyStore [downPollAtThreshold])
        1 1 5 "up" 0 2 3 2).2.incidents.map
        (fun i => (i.state, i.close_reason))) = [("closed", "up-streak")] := by
  constructor
  · rfl
  · decide

/-- **C4 (amended).** When the engine sees `status ∈ {"up", "degraded"}`,
an open incident for the check, and up-streak ≥ close-threshold, it closes
that incident — state `"closed"`, close reason `"up_streak"`, closed
timestamp set, metadata extended with the threshold and the up-count at
trigger, all other rows untouched — and returns an `incident_closed` event
carrying that incident's id and the poll's device/check/timestamp; with no
open incident or the up-streak below the threshold, the table is unchanged
and no event is produced. -/
theorem close_trigger (store : IncidentStore) (device_id check_id ts : Nat)
    (status : String)
    (down_streak up_streak open_after_downs close_after_ups : Nat)
    (hstat : status = "up" ∨ status = "degraded") :
    (∀ inc, findOpenIncident store.incidents check_id = some inc →
      close_after_ups ≤ up_streak →
      (process_status_transition store device_id check_id ts status
          down_streak up_streak open_after_downs close_after_ups).1 =
        some { type := "incident_closed", incident_id := inc.id,
               device_id := device_id, check_id := check_id, ts := ts } ∧
      (process_status_transition store device_id check_id ts status
          down_streak up_streak open_after_downs close_after_ups).2.incidents =
        store.incidents.map (fun i =>
          if i.id == inc.id then
            { i with
              state := "closed"
              closed_ts := some ts
              close_reason := "up_streak"
              meta := metaMerge i.meta
                [("close_after_ups", close_after_ups),
                 ("up_streak", up_streak)] }
          else i)) ∧
    ((findOpenIncident store.incidents check_id = none ∨
        up_streak < close_after_ups) →
      process_status_transition store device_id check_id ts status
          down_streak up_streak open_after_downs close_after_ups =
        (none, store)) := by
  have hne : status ≠ "down" := by rcases hstat with rfl | rfl <;> decide
  constructor
  · intro inc hfind hth
    rw [process_eq_close store device_id check_id ts status down_streak
      up_streak open_after_downs close_after_ups inc hne hfind hth]
    exact ⟨rfl, rfl⟩
  · intro h
    exact process_eq_up_noop store device_id check_id ts status down_streak
      up_streak open_after_downs close_after_ups hne h

/-- Witness for C4: the incident opened by three `down`s is closed by an
`up` poll with up-streak 2 at the default thresholds. -/
theorem close_trigger_witness :
    findOpenIncident (pollSeq emptyStore [downPollAtThreshold]).incidents 1 =
        some (newOpenIncident 1 1 1 0 3 3) ∧ (2 : Nat) ≤ 2 ∧
    (process_status_transition (pollSeq emptyStore [downPollAtThreshold])
        1 1 5 "up" 0 2 3 2).1 =
      some { type := "incident_closed", incident_id := 1, device_id := 1,
             check_id := 1, ts := 5 } :=
  ⟨by decide, by decide,
   ((close_trigger (pollSeq emptyStore [downPollAtThreshold]) 1 1 5 "up"
      0 2 3 2 (Or.inl rfl)).1 (newOpenIncident 1 1 1 0 3 3)
      (by decide) (by decide)).1⟩

/-! ### C5: streak state across reload

`reload` (scheduler.py 46-62) cancels and recreates the polling tasks but
never touches `self._streaks`, so a recreated check's streaks continue
from their pre-reload values. -/

/-- **C5 counterexample.** Poll check 1 `down` once (streaks `(1, 0)`),
reload with check 1 still active, poll `down` again: the first streak
update after the reload yields a down-count of 2, not the 1 it would yield
had the streak state restarted from `(0, 0)`. -/
theorem streaks_survive_reload_counterexample :
    (update_streaks (reload (update_streaks initScheduler 1 "down").2 [1])
        1 "down").1 ≠ ({ down := 1, up := 0 } : StreakState) := by
  decide

/-- **C5 (amended).** A check id with no entry in the scheduler's streak
map gets the initial state `(0, 0)` on its first update (so a freshly
constructed scheduler starts every check at `(0, 0)`); but `reload()` does
not clear the streak map, so a recreated check's streak state survives the
reload unchanged. -/
theorem streak_state_across_reload (sched : SchedulerState)
    (check_id : Nat) (status : String) (active_checks : List Nat)
    (h : streaksLookup sched.streaks check_id = none) :
    (update_streaks sched check_id status).1 =
        streakStep { down := 0, up := 0 } status ∧
    (reload sched active_checks).streaks = sched.streaks ∧
    initScheduler.streaks = [] := by
  refine ⟨?_, rfl, rfl⟩
  simp [update_streaks, h]

/-- Witness for C5: a fresh scheduler has no entry for check 1, whose
first `down` poll then yields streaks `(1, 0)`. -/
theorem streak_state_across_reload_witness :
    streaksLookup initScheduler.streaks 1 = none ∧
    (update_streaks initScheduler 1 "down").1 =
        streakStep { down := 0, up := 0 } "down" ∧
    (reload initScheduler [1]).streaks = initScheduler.streaks ∧
    initScheduler.streaks = [] :=
  ⟨rfl, streak_state_across_reload initScheduler 1 "down" [1] rfl⟩

/-! ### C6: inter-poll wait

The loop passes `timeout=chk.interval_s` to `asyncio.wait_for`
(scheduler.py 141): the full interval, not the interval minus the time
already spent in the poll. -/

/-- **C6 counterexample.** For a 10-unit interval and a poll that took 3
units, the code waits 10 units, not the 7 the claim requires. -/
theorem inter_poll_wait_counterexample :
    interPollWaitTimeout 10 3 = 10 ∧
    interPollWaitTimeout 10 3 ≠ interPollWaitSpec 10 3 := by
  decide

/-- **C6 (amended).** After completing one poll the loop waits the full
polling interval (`chk.interval_s`), independent of the time spent in the
poll; the wait is cancellable by the global stop signal: if the stop event
fires during the wait after poll `k` (all earlier waits timing out), the
loop exits immediately with exactly `k + 1` polls performed and no further
polling; and once the stop flag is observed the loop state never changes
again. -/
theorem inter_poll_wait (interval_s elapsed_in_poll : Nat)
    (st : LoopState) (tail : List Bool) (waits : List Bool) (k : Nat)
    (hpre : waits.take k = List.replicate k false)
    (hk : waits.get? k = some true) :
    interPollWaitTimeout interval_s elapsed_in_poll = interval_s ∧
    (st.stopped = true → loopTrace st tail = st) ∧
    (loopTrace { stopped := false, pollCount := 0 } waits =
      { stopped := true, pollCount := k + 1 }) := by
  refine ⟨rfl, ?_, ?_⟩
  · intro hstop
    induction tail with
    | nil => rfl
    | cons w rest ih =>
        have : loopIter st w = st := by
          simp [loopIter, hstop]
        simpa [loopTrace, this] using ih
  · have general : ∀ (k : Nat) (waits : List Bool) (c : Nat),
        waits.take k = List.replicate k false → waits.get? k = some true →
        loopTrace { stopped := false, pollCount := c } waits =
          { stopped := true, pollCount := c + k + 1 } := by
      intro k
      induction k with
      | zero =>
          intro waits c _ hget
          cases waits with
          | nil => simp at hget
          | cons w rest =>
              have hw : w = true := by simpa using hget
              subst hw
              have hstopped : ∀ (l : List Bool) (m : Nat),
                  loopTrace { stopped := true, pollCount := m } l =
                    { stopped := true, pollCount := m } := by
                intro l
                induction l with
                | nil => intro m; rfl
                | cons x xs ihx =>
                    intro m
                    simpa [loopTrace, loopIter] using ihx m
              simpa [loopTrace, loopIter] using hstopped rest (c + 1)
      | succ k ih =>
          intro waits c htake hget
          cases waits with
          | nil => simp at hget
          | cons w rest =>
              have hw : w = false := by
                have := congrArg List.head? htake
                simpa [List.take_succ_cons, List.replicate_succ] using this
              subst hw
              have htake' : rest.take k = List.replicate k false := by
                have := congrArg List.tail htake
                simpa [List.take_succ_cons, List.replicate_succ] using this
              have hget' : rest.get? k = some true := by simpa using hget
              have hrec := ih rest (c + 1) htake' hget'
              have hstep : loopTrace { stopped := false, pollCount := c }
                  (false :: rest) =
                  loopTrace { stopped := false, pollCount := c + 1 } rest := by
                simp [loopTrace, loopIter]
              rw [hstep, hrec]
              have harith : c + 1 + k + 1 = c + (k + 1) + 1 := by omega
              rw [harith]
    simpa using general k waits 0 hpre hk

/-- Witness for C6: interval 10, poll time 3, stop fires during the wait
after the second poll (`k = 1`). -/
theorem inter_poll_wait_witness :
    ([false, true, true].take 1 = List.replicate 1 false) ∧
    ([false, true, true].get? 1 = some true) ∧
    interPollWaitTimeout 10 3 = 10 ∧
    (loopTrace { stopped := false, pollCount := 0 } [false, true, true] =
      { stopped := true, pollCount := 2 }) :=
  ⟨by decide, by decide,
   ((inter_poll_wait 10 3 { stopped := false, pollCount := 0 } []
      [false, true, true] 1 (by decide) (by decide)).1),
   ((inter_poll_wait 10 3 { stopped := false, pollCount := 0 } []
      [false, true, true] 1 (by decide) (by decide)).2.2)⟩

/-! ### C7: effective incident thresholds (scheduler.py 26-28, 86-87) -/

/-- **C7.** The open threshold handed to the incident engine is the
per-check `open_after_downs` parameter when present and the global default
3 otherwise; the close threshold is the per-check `close_after_ups`
parameter when present and the global default 2 otherwise. -/
theorem effective_thresholds (params : List (String × Nat)) :
    (∀ p, params.find? (fun q => q.1 == "open_after_downs") = some p →
        effectiveOpenAfterDowns params = p.2) ∧
    (params.find? (fun q => q.1 == "open_after_downs") = none →
        effectiveOpenAfterDowns params = 3) ∧
    (∀ p, params.find? (fun q => q.1 == "close_after_ups") = some p →
        effectiveCloseAfterUps params = p.2) ∧
    (params.find? (fun q => q.1 == "close_after_ups") = none →
        effectiveCloseAfterUps params = 2) := by
  refine ⟨?_, ?_, ?_, ?_⟩
  · intro p hp
    simp [effectiveOpenAfterDowns, paramsGet, hp]
  · intro hp
    simp [effectiveOpenAfterDowns, paramsGet, open_after_downs_default, hp]
  · intro p hp
    simp [effectiveCloseAfterUps, paramsGet, hp]
  · intro hp
    simp [effectiveCloseAfterUps, paramsGet, close_after_ups_default, hp]

/-- Witness for C7: with `open_after_downs = 5` present and
`close_after_ups` absent, the engine gets thresholds 5 and 2. -/
theorem effective_thresholds_witness :
    ([(("open_after_downs" : String), (5 : Nat))].find?
        (fun q => q.1 == "open_after_downs") = some ("open_after_downs", 5)) ∧
    ([(("open_after_downs" : String), (5 : Nat))].find?
        (fun q => q.1 == "close_after_ups") = none) ∧
    effectiveOpenAfterDowns [("open_after_downs", 5)] = 5 ∧
    effectiveCloseAfterUps [("open_after_downs", 5)] = 2 :=
  ⟨by decide, by decide,
   (effective_thresholds [("open_after_downs", 5)]).1
     ("open_after_downs", 5) (by decide),
   (effective_thresholds [("open_after_downs", 5)]).2.2.2 (by decide)⟩

/-! ### C8: SNMPv3 executor failure conversion (snmpv3_get.py 52-111)

The claim says `run` never propagates an exception for any input, but
`port = int(params.get("port", 161))` at line 54 runs before the `try`
block starts at line 81, so a non-numeric `"port"` parameter raises a
`ValueError` that propagates out of `run` uncaught. -/

/-- Failure conversion of the body after a successful parameter parse: a
missing (empty after `env:` resolution) username, a raised exception
inside the `try`, and an SNMP error indication each yield an outcome with
`status = "down"`, `latency_ms = none` and an `"error"` entry in the
details; and every `down` outcome the body produces has no latency and
carries an `"error"` detail. -/
theorem snmpv3_outcome_failure_conversion (env : String → Option String)
    (username_param : String) (port : Nat) (probe : SnmpProbe) :
    (resolve_secret env username_param = "" →
        snmpv3_get_outcome env username_param port probe =
          { status := "down", latency_ms := none,
            details := [("error", DetailVal.str "missing username")] }) ∧
    (∀ msg, probe = SnmpProbe.raises msg →
        resolve_secret env username_param ≠ "" →
        snmpv3_get_outcome env username_param port probe =
          { status := "down", latency_ms := none,
            details := [("error", DetailVal.str msg),
                        ("port", DetailVal.num port)] }) ∧
    (∀ ei es eidx binds lat,
        probe = SnmpProbe.response (some ei) es eidx binds lat →
        resolve_secret env username_param ≠ "" →
        snmpv3_get_outcome env username_param port probe =
          { status := "down", latency_ms := none,
            details := [("error", DetailVal.str ei)] }) ∧
    ((snmpv3_get_outcome env username_param port probe).status = "down" →
        (snmpv3_get_outcome env username_param port probe).latency_ms = none ∧
        ((snmpv3_get_outcome env username_param port probe).details.find?
            (fun p => p.1 == "error")).isSome = true) := by
  by_cases hu : resolve_secret env username_param = ""
  · refine ⟨fun _ => by simp [snmpv3_get_outcome, hu], ?_, ?_, ?_⟩
    · intro msg hp habs
      exact absurd hu habs
    · intro ei es eidx binds lat hp habs
      exact absurd hu habs
    · intro _
      constructor
      · simp [snmpv3_get_outcome, hu]
      · simp [snmpv3_get_outcome, hu]
  · refine ⟨fun h => absurd h hu, ?_, ?_, ?_⟩
    · intro msg hp _
      subst hp
      simp [snmpv3_get_outcome, hu]
    · intro ei es eidx binds lat hp _
      subst hp
      simp [snmpv3_get_outcome, hu]
    · intro hdown
      cases probe with
      | raises msg =>
          refine ⟨by simp [snmpv3_get_outcome, hu],
            by simp [snmpv3_get_outcome, hu]⟩
      | response ei es eidx binds lat =>
          cases ei with
          | some e =>
              refine ⟨by simp [snmpv3_get_outcome, hu],
                by simp [snmpv3_get_outcome, hu]⟩
          | none =>
              cases es with
              | some s =>
                  exact absurd hdown (by simp [snmpv3_get_outcome, hu])
              | none =>
                  exact absurd hdown (by simp [snmpv3_get_outcome, hu])

/-- **C8 counterexample.** With `params = {"port": "abc"}` and a valid
username, `run` does not return a `down` outcome: the `int()` call at
line 54, outside the `try`, raises and the `ValueError` propagates out of
the executor. -/
theorem executor_exception_propagation_counterexample :
    snmpv3_get_run (fun _ => none) (some (PyVal.str "abc")) "admin"
        (SnmpProbe.response none none 0 [] 5) =
      Except.error "invalid literal for int() with base 10: abc" := rfl

/-- **C8 (amended).** Whenever the pre-`try` parameter parse succeeds
(`int(params.get("port", 161))` yields a port), the executor never
propagates: `run` returns an outcome, and a missing username credential, a
raised exception inside the `try`, and an SNMP error indication each yield
`status = "down"`, `latency_ms = none` and an `"error"` entry in the
details, with every `down` outcome latency-free and error-detailed.  A
`"port"` parameter on which `int()` raises instead propagates the
exception out of `run` (see the counterexample). -/
theorem executor_failure_conversion (env : String → Option String)
    (port_param : Option PyVal) (username_param : String)
    (probe : SnmpProbe) (port : Nat)
    (hport : pyInt (port_param.getD (PyVal.int 161)) = Except.ok port) :
    snmpv3_get_run env port_param username_param probe =
      Except.ok (snmpv3_get_outcome env username_param port probe) ∧
    (resolve_secret env username_param = "" →
        snmpv3_get_outcome env username_param port probe =
          { status := "down", latency_ms := none,
            details := [("error", DetailVal.str "missing username")] }) ∧
    (∀ msg, probe = SnmpProbe.raises msg →
        resolve_secret env username_param ≠ "" →
        snmpv3_get_outcome env username_param port probe =
          { status := "down", latency_ms := none,
            details := [("error", DetailVal.str msg),
                        ("port", DetailVal.num port)] }) ∧
    (∀ ei es eidx binds lat,
        probe = SnmpProbe.response (some ei) es eidx binds lat →
        resolve_secret env username_param ≠ "" →
        snmpv3_get_outcome env username_param port probe =
          { status := "down", latency_ms := none,
            details := [("error", DetailVal.str ei)] }) ∧
    ((snmpv3_get_outcome env username_param port probe).status = "down" →
        (snmpv3_get_outcome env username_param port probe).latency_ms = none ∧
        ((snmpv3_get_outcome env username_param port probe).details.find?
            (fun p => p.1 == "error")).isSome = true) := by
  obtain ⟨h1, h2, h3, h4⟩ :=
    snmpv3_outcome_failure_conversion env username_param port probe
  refine ⟨?_, h1, h2, h3, h4⟩
  simp [snmpv3_get_run, hport]

/-- Witness for C8: the default port parses (`params` without `"port"`),
an `env:`-indirected username with the variable unset resolves to the
empty string, and `run` returns — rather than raises — the
missing-credential `down` outcome. -/
theorem executor_failure_conversion_witness :
    pyInt ((none : Option PyVal).getD (PyVal.int 161)) = Except.ok 161 ∧
    resolve_secret (fun _ => none) "env:SNMP_USER" = "" ∧
    snmpv3_get_run (fun _ => none) none "env:SNMP_USER"
        (SnmpProbe.raises "timeout") =
      Except.ok { status := "down", latency_ms := none,
                  details := [("error", DetailVal.str "missing username")] } :=
  ⟨rfl, by decide,
   ((executor_failure_conversion (fun _ => none) none "env:SNMP_USER"
       (SnmpProbe.raises "timeout") 161 rfl).1).trans
     (congrArg Except.ok
       ((executor_failure_conversion (fun _ => none) none "env:SNMP_USER"
           (SnmpProbe.raises "timeout") 161 rfl).2.1 (by decide)))⟩

/-! ### C9: fail-stop on scheduling fault (scheduler.py 145-155) -/

/-- **C9.** If an unexpected exception (not a cancellation) escapes the
loop body after any number of normally completed iterations, the loop's
whole event trace is the normal iterations' events followed by exactly one
`scheduler_error` event carrying the device id, check id, kind and error
text — whatever iteration outcomes would have followed contribute nothing,
i.e. the loop terminates permanently with no further polls or events. -/
theorem fail_stop (device_id check_id : Nat) (kind msg : String)
    (pre rest : List IterOutcome)
    (hpre : ∀ o ∈ pre, ∃ evs, o = IterOutcome.normal evs ∧
        ∀ e ∈ evs, isSchedulerError e = false) :
    runCheckLoopEvents device_id check_id kind
        (pre ++ IterOutcome.crashed msg :: rest) =
      (pre.map iterEvents).flatten ++
        [LoopEvent.schedulerError
          { type := "scheduler_error", device_id := device_id,
            check_id := check_id, kind := kind, error := msg }] ∧
    (runCheckLoopEvents device_id check_id kind
        (pre ++ IterOutcome.crashed msg :: rest)).filter isSchedulerError =
      [LoopEvent.schedulerError
        { type := "scheduler_error", device_id := device_id,
          check_id := check_id, kind := kind, error := msg }] := by
  induction pre with
  | nil =>
      refine ⟨rfl, ?_⟩
      simp [runCheckLoopEvents, isSchedulerError]
  | cons o pre ih =>
      obtain ⟨evs, rfl, hevs⟩ := hpre o (List.mem_cons_self _ _)
      have hpre' : ∀ o ∈ pre, ∃ evs, o = IterOutcome.normal evs ∧
          ∀ e ∈ evs, isSchedulerError e = false := by
        intro o ho
        exact hpre o (List.mem_cons_of_mem _ ho)
      obtain ⟨ih1, ih2⟩ := ih hpre'
      have hfevs : evs.filter isSchedulerError = [] :=
        List.filter_eq_nil_iff.mpr (fun e he => by simp [hevs e he])
      have hsplit : runCheckLoopEvents device_id check_id kind
          ((IterOutcome.normal evs :: pre) ++ IterOutcome.crashed msg :: rest) =
          evs ++ runCheckLoopEvents device_id check_id kind
            (pre ++ IterOutcome.crashed msg :: rest) := rfl
      constructor
      · rw [hsplit, ih1, List.map_cons]
        simp [iterEvents, List.append_assoc]
      · rw [hsplit, List.filter_append, hfevs, ih2, List.nil_append]

/-- Witness for C9: one normal iteration broadcasting a result event, then
a crash; iterations scheduled after the crash contribute nothing. -/
theorem fail_stop_witness :
    (∀ o ∈ [IterOutcome.normal [LoopEvent.resultEvent 1 "up" 0 1]],
        ∃ evs, o = IterOutcome.normal evs ∧
          ∀ e ∈ evs, isSchedulerError e = false) ∧
    runCheckLoopEvents 1 2 "ping"
        ([IterOutcome.normal [LoopEvent.resultEvent 1 "up" 0 1]] ++
          IterOutcome.crashed "boom" ::
            [IterOutcome.normal [LoopEvent.resultEvent 1 "up" 0 2]]) =
      ([[LoopEvent.resultEvent 1 "up" 0 1]]).flatten ++
        [LoopEvent.schedulerError
          { type := "scheduler_error", device_id := 1, check_id := 2,
            kind := "ping", error := "boom" }] :=
  ⟨fun o ho => ⟨[LoopEvent.resultEvent 1 "up" 0 1],
      List.mem_singleton.mp ho, by decide⟩,
   (fail_stop 1 2 "ping" "boom"
      [IterOutcome.normal [LoopEvent.resultEvent 1 "up" 0 1]]
      [IterOutcome.normal [LoopEvent.resultEvent 1 "up" 0 2]]
      (fun o ho => ⟨[LoopEvent.resultEvent 1 "up" 0 1],
        List.mem_singleton.mp ho, by decide⟩)).1⟩

/-! ### C10: any non-`down` status counts as available

Both `_update_streaks` (scheduler.py 70-72) and
`process_status_transition` (incident_engine.py 94-95) branch on
`status == "down"` versus everything else. -/

/-- **C10.** For every status other than `"down"` — not only `"up"` and
`"degraded"` — the streak update increments the up-count and zeroes the
down-count, and the incident engine closes an open incident once the
up-streak reaches the close threshold. -/
theorem non_down_counts_as_available (st : StreakState) (status : String)
    (hne : status ≠ "down") (store : IncidentStore)
    (device_id check_id ts : Nat)
    (down_streak up_streak open_after_downs close_after_ups : Nat) :
    streakStep st status = { down := 0, up := st.up + 1 } ∧
    (∀ inc, findOpenIncident store.incidents check_id = some inc →
        close_after_ups ≤ up_streak →
        (process_status_transition store device_id check_id ts status
            down_streak up_streak open_after_downs close_after_ups).1 =
          some { type := "incident_closed", incident_id := inc.id,
                 device_id := device_id, check_id := check_id, ts := ts }) := by
  have hb : (status == "down") = false := by simpa using hne
  constructor
  · simp [streakStep, hb]
  · intro inc hfind hth
    rw [process_eq_close store device_id check_id ts status down_streak
      up_streak open_after_downs close_after_ups inc hne hfind hth]

/-- Witness for C10 with the status string `"flaky"`, which is neither
`"up"` nor `"degraded"`: it bumps the up-streak and closes the open
incident. -/
theorem non_down_counts_as_available_witness :
    ("flaky" : String) ≠ "down" ∧
    findOpenIncident (pollSeq emptyStore [downPollAtThreshold]).incidents 1 =
        some (newOpenIncident 1 1 1 0 3 3) ∧ (2 : Nat) ≤ 2 ∧
    streakStep { down := 3, up := 0 } "flaky" = { down := 0, up := 1 } ∧
    (process_status_transition (pollSeq emptyStore [downPollAtThreshold])
        1 1 5 "flaky" 0 2 3 2).1 =
      some { type := "incident_closed", incident_id := 1, device_id := 1,
             check_id := 1, ts := 5 } :=
  ⟨by decide, by decide, by decide,
   (non_down_counts_as_available { down := 3, up := 0 } "flaky"
      (by decide) (pollSeq emptyStore [downPollAtThreshold]) 1 1 5 0 2 3 2).1,
   (non_down_counts_as_available { down := 3, up := 0 } "flaky"
      (by decide) (pollSeq emptyStore [downPollAtThreshold]) 1 1 5 0 2 3 2).2
      (newOpenIncident 1 1 1 0 3 3) (by decide) (by decide)⟩

end NetDash
